import Mathlib

/-!
Verification of the SSD1675 e-paper driver in `src/inky_driver.rs`.

The driver owns an SPI write handle and four GPIO pins (chip-select output,
busy input, data/command output, reset output) and talks to the controller
through them.  We embed it shallowly: every underlying pin/bus primitive
appends an observable `Event` to a trace, and the result of the n-th call to
each primitive is supplied by a mock environment `Env` (so both fully
successful runs and runs with injected failures are covered).  The
`busy_wait` loop of the source is a genuine `while` loop; we model it with a
fuel bound, where the outcome `more` means the run has not returned within
the given fuel.
-/

namespace InkyDriver

/-- Observable hardware events emitted by the driver, in order. -/
inductive Event where
  | spiWrite (bytes : List Nat)
  | csSet (high : Bool)
  | dcSet (high : Bool)
  | rstSet (high : Bool)
  | busyRead (high : Bool)
  | delayMs (ms : Nat)
deriving DecidableEq, Repr

/-- Mirrors `enum InkyError<SPIE, GPIOE> { Spi(SPIE), Gpio(GPIOE) }`. -/
inductive InkyError (SPIE GPIOE : Type) where
  | Spi (e : SPIE)
  | Gpio (e : GPIOE)
deriving DecidableEq, Repr

/-- Result of running a driver operation under a fuel bound: a returned
value, a propagated error, or `more`, meaning the run has not returned
within the fuel (models non-termination of the unbounded source loop). -/
inductive Outcome (ε α : Type) where
  | ok (a : α)
  | err (e : ε)
  | more
deriving DecidableEq, Repr

/-- Mock hardware environment: the result of the n-th call to each
underlying primitive.  `none` means that pin/bus call succeeds, `some e`
that it fails with error `e`; a busy-pin read yields either a sampled level
or a read error. -/
structure Env (SPIE GPIOE : Type) where
  spiRes : Nat → Option SPIE
  csRes : Nat → Option GPIOE
  dcRes : Nat → Option GPIOE
  rstRes : Nat → Option GPIOE
  busyRes : Nat → Except GPIOE Bool

/-- Driver-visible run state: the event trace so far, plus one call counter
per primitive, used to index the mock results in `Env`. -/
structure St where
  trace : List Event
  nSpi : Nat
  nCs : Nat
  nDc : Nat
  nRst : Nat
  nBusy : Nat
deriving DecidableEq, Repr

/-- Fresh run state: empty trace, all call counters zero. -/
def St.start : St := ⟨[], 0, 0, 0, 0, 0⟩

variable {SPIE GPIOE : Type}

/-- One `self.spi.write(bytes)` call: fails with `InkyError::Spi` when the
mock says so, otherwise records the bytes written on the bus. -/
def spiWriteOp (env : Env SPIE GPIOE) (bytes : List Nat) (s : St) :
    Outcome (InkyError SPIE GPIOE) Unit × St :=
  match env.spiRes s.nSpi with
  | some e => (Outcome.err (InkyError.Spi e), { s with nSpi := s.nSpi + 1 })
  | none =>
      (Outcome.ok (),
        { s with trace := s.trace ++ [Event.spiWrite bytes], nSpi := s.nSpi + 1 })

/-- One chip-select `set_low`/`set_high` call (`InkyError::Gpio` on failure). -/
def csSetOp (env : Env SPIE GPIOE) (high : Bool) (s : St) :
    Outcome (InkyError SPIE GPIOE) Unit × St :=
  match env.csRes s.nCs with
  | some e => (Outcome.err (InkyError.Gpio e), { s with nCs := s.nCs + 1 })
  | none =>
      (Outcome.ok (),
        { s with trace := s.trace ++ [Event.csSet high], nCs := s.nCs + 1 })

/-- One data/command `set_low`/`set_high` call (`InkyError::Gpio` on failure). -/
def dcSetOp (env : Env SPIE GPIOE) (high : Bool) (s : St) :
    Outcome (InkyError SPIE GPIOE) Unit × St :=
  match env.dcRes s.nDc with
  | some e => (Outcome.err (InkyError.Gpio e), { s with nDc := s.nDc + 1 })
  | none =>
      (Outcome.ok (),
        { s with trace := s.trace ++ [Event.dcSet high], nDc := s.nDc + 1 })

/-- One reset-pin `set_low`/`set_high` call (`InkyError::Gpio` on failure). -/
def rstSetOp (env : Env SPIE GPIOE) (high : Bool) (s : St) :
    Outcome (InkyError SPIE GPIOE) Unit × St :=
  match env.rstRes s.nRst with
  | some e => (Outcome.err (InkyError.Gpio e), { s with nRst := s.nRst + 1 })
  | none =>
      (Outcome.ok (),
        { s with trace := s.trace ++ [Event.rstSet high], nRst := s.nRst + 1 })

/-- One `self.busy.is_high()` call: yields the sampled level, or
`InkyError::Gpio` on a read failure. -/
def busyReadOp (env : Env SPIE GPIOE) (s : St) :
    Outcome (InkyError SPIE GPIOE) Bool × St :=
  match env.busyRes s.nBusy with
  | Except.error e => (Outcome.err (InkyError.Gpio e), { s with nBusy := s.nBusy + 1 })
  | Except.ok b =>
      (Outcome.ok b,
        { s with trace := s.trace ++ [Event.busyRead b], nBusy := s.nBusy + 1 })

/-- One `delay.delay_ms(ms)` call (infallible). -/
def delayOp (ms : Nat) (s : St) : St :=
  { s with trace := s.trace ++ [Event.delayMs ms] }

/-- Sequencing with early return, modelling Rust `?` propagation. -/
def step {ε α β : Type} (m : Outcome ε α × St) (f : α → St → Outcome ε β × St) :
    Outcome ε β × St :=
  match m with
  | (Outcome.ok a, s) => f a s
  | (Outcome.err e, s) => (Outcome.err e, s)
  | (Outcome.more, s) => (Outcome.more, s)

/-! Command opcodes used by the driver, named as in `inky_driver.rs`. -/

def DRIVER_OUTPUT_CONTROL : Nat := 0x01
def DATA_ENTRY_MODE_SETTING : Nat := 0x11
def SW_RESET : Nat := 0x12
def MASTER_ACTIVATION : Nat := 0x20
def DISPLAY_UPDATE_CONTROL_1 : Nat := 0x21
def DISPLAY_UPDATE_CONTROL_2 : Nat := 0x22
def WRITE_RAM_BW : Nat := 0x24
def WRITE_RAM_RED : Nat := 0x26
def BORDER_WAVEFORM_CONTROL : Nat := 0x3C
def SET_RAM_X_ADDRESS_START_END_POSITION : Nat := 0x44
def SET_RAM_Y_ADDRESS_START_END_POSITION : Nat := 0x45
def SET_RAM_X_ADDRESS_COUNTER : Nat := 0x4E
def SET_RAM_Y_ADDRESS_COUNTER : Nat := 0x4F

/-- `send_command`: DC low, CS low, write the one command byte, CS high. -/
def sendCommand (env : Env SPIE GPIOE) (command : Nat) (s : St) :
    Outcome (InkyError SPIE GPIOE) Unit × St :=
  step (dcSetOp env false s) fun _ s =>
  step (csSetOp env false s) fun _ s =>
  step (spiWriteOp env [command] s) fun _ s =>
  csSetOp env true s

/-- `send_data`: DC high, CS low, write all data bytes in one bus write,
CS high. -/
def sendData (env : Env SPIE GPIOE) (data : List Nat) (s : St) :
    Outcome (InkyError SPIE GPIOE) Unit × St :=
  step (dcSetOp env true s) fun _ s =>
  step (csSetOp env false s) fun _ s =>
  step (spiWriteOp env data s) fun _ s =>
  csSetOp env true s

/-- `send_command_data`: the command, then the data only when present. -/
def sendCommandData (env : Env SPIE GPIOE) (command : Nat) (data : Option (List Nat))
    (s : St) : Outcome (InkyError SPIE GPIOE) Unit × St :=
  step (sendCommand env command s) fun _ s =>
  match data with
  | some d => sendData env d s
  | none => (Outcome.ok (), s)

/-- `reset`: reset pin low, 100 ms, reset pin high, 100 ms. -/
def reset (env : Env SPIE GPIOE) (s : St) :
    Outcome (InkyError SPIE GPIOE) Unit × St :=
  step (rstSetOp env false s) fun _ s =>
  step (rstSetOp env true (delayOp 100 s)) fun _ s =>
  (Outcome.ok (), delayOp 100 s)

/-- `busy_wait`: while the busy pin reads high, sleep 10 ms and poll again;
return once it reads low.  `fuel` bounds the number of polls; running out of
fuel yields `more` (the source loop simply has not returned yet). -/
def busyWait (env : Env SPIE GPIOE) : Nat → St → Outcome (InkyError SPIE GPIOE) Unit × St
  | 0, s => (Outcome.more, s)
  | fuel + 1, s =>
    match busyReadOp env s with
    | (Outcome.ok true, s) => busyWait env fuel (delayOp 10 s)
    | (Outcome.ok false, s) => (Outcome.ok (), s)
    | (Outcome.err e, s) => (Outcome.err e, s)
    | (Outcome.more, s) => (Outcome.more, s)

/-- `set_ram_address_counter(x: u8, y: u16)`: X-counter command with the
one-byte payload `[x]`, then Y-counter command with the two-byte
little-endian payload `[y as u8, (y >> 8) as u8]`. -/
def setRamAddressCounter (env : Env SPIE GPIOE) (x y : Nat) (s : St) :
    Outcome (InkyError SPIE GPIOE) Unit × St :=
  step (sendCommandData env SET_RAM_X_ADDRESS_COUNTER (some [x % 256]) s) fun _ s =>
  step (sendCommandData env SET_RAM_Y_ADDRESS_COUNTER
    (some [y % 256, (y / 256) % 256]) s) fun _ s =>
  (Outcome.ok (), s)

/-- `init`: reset pulse, busy wait, software reset, busy wait, then the
fixed configuration command sequence of `inky_driver.rs`. -/
def init (env : Env SPIE GPIOE) (fuel : Nat) (s : St) :
    Outcome (InkyError SPIE GPIOE) Unit × St :=
  step (reset env s) fun _ s =>
  step (busyWait env fuel s) fun _ s =>
  step (sendCommand env SW_RESET s) fun _ s =>
  step (busyWait env fuel s) fun _ s =>
  step (sendCommandData env DRIVER_OUTPUT_CONTROL (some [0xD3, 0x00, 0x00]) s) fun _ s =>
  step (sendCommandData env DATA_ENTRY_MODE_SETTING (some [0x03]) s) fun _ s =>
  step (sendCommandData env SET_RAM_X_ADDRESS_START_END_POSITION (some [0x00, 0x0C]) s) fun _ s =>
  step (sendCommandData env SET_RAM_Y_ADDRESS_START_END_POSITION
    (some [0x00, 0x00, 0xD3, 0x00]) s) fun _ s =>
  step (sendCommandData env BORDER_WAVEFORM_CONTROL (some [0x05]) s) fun _ s =>
  step (sendCommandData env DISPLAY_UPDATE_CONTROL_1 (some [0x00, 0x80]) s) fun _ s =>
  step (sendCommandData env DISPLAY_UPDATE_CONTROL_2 (some [0xC7]) s) fun _ s =>
  (Outcome.ok (), s)

/-- `update_bw`: RAM address counter to (0,0), then the black/white
RAM-write command followed by the buffer. -/
def update_bw (env : Env SPIE GPIOE) (buffer : List Nat) (s : St) :
    Outcome (InkyError SPIE GPIOE) Unit × St :=
  step (setRamAddressCounter env 0 0 s) fun _ s =>
  step (sendCommandData env WRITE_RAM_BW (some buffer) s) fun _ s =>
  (Outcome.ok (), s)

/-- `update_red`: RAM address counter to (0,0), then the red RAM-write
command followed by the buffer. -/
def update_red (env : Env SPIE GPIOE) (buffer : List Nat) (s : St) :
    Outcome (InkyError SPIE GPIOE) Unit × St :=
  step (setRamAddressCounter env 0 0 s) fun _ s =>
  step (sendCommandData env WRITE_RAM_RED (some buffer) s) fun _ s =>
  (Outcome.ok (), s)

/-- `display_refresh`: master activation command, then busy wait. -/
def display_refresh (env : Env SPIE GPIOE) (fuel : Nat) (s : St) :
    Outcome (InkyError SPIE GPIOE) Unit × St :=
  step (sendCommand env MASTER_ACTIVATION s) fun _ s =>
  step (busyWait env fuel s) fun _ s =>
  (Outcome.ok (), s)

/-! Trace observers. -/

/-- All byte sequences written on the SPI bus, in order. -/
def writesOf (tr : List Event) : List (List Nat) :=
  tr.filterMap fun ev =>
    match ev with
    | Event.spiWrite bytes => some bytes
    | _ => none

/-- Level of the data/command line after the trace, starting from `dc`. -/
def lastDc (dc : Bool) : List Event → Bool
  | [] => dc
  | Event.dcSet b :: rest => lastDc b rest
  | _ :: rest => lastDc dc rest

/-- The bus writes performed while the data/command line is low, i.e. the
command opcodes (as written byte sequences), in order; `dc` is the line
level at the start of the trace. -/
def commandWritesOf (dc : Bool) : List Event → List (List Nat)
  | [] => []
  | Event.dcSet b :: rest => commandWritesOf b rest
  | Event.spiWrite bytes :: rest =>
      if dc then commandWritesOf dc rest else bytes :: commandWritesOf dc rest
  | _ :: rest => commandWritesOf dc rest

/-- Every pin and bus call of the environment succeeds (busy reads may
sample either level). -/
def Env.allOk (env : Env SPIE GPIOE) : Prop :=
  (∀ n, env.spiRes n = none) ∧ (∀ n, env.csRes n = none) ∧
  (∀ n, env.dcRes n = none) ∧ (∀ n, env.rstRes n = none) ∧
  (∀ n, ∃ b, env.busyRes n = Except.ok b)

/-- The events of `k` polls that read the busy pin high (each followed by
the 10 ms sleep). -/
def pollsTrue : Nat → List Event
  | 0 => []
  | k + 1 => Event.busyRead true :: Event.delayMs 10 :: pollsTrue k

/-- The events of a complete successful busy wait: `k` high polls then the
final low poll. -/
def pollTail (k : Nat) : List Event :=
  pollsTrue k ++ [Event.busyRead false]

/-- Trace of a successful `send_command c`. -/
def cmdTrace (c : Nat) : List Event :=
  [Event.dcSet false, Event.csSet false, Event.spiWrite [c], Event.csSet true]

/-- Trace of a successful `send_data d`. -/
def dataTrace (d : List Nat) : List Event :=
  [Event.dcSet true, Event.csSet false, Event.spiWrite d, Event.csSet true]

/-- Trace of a successful `send_command_data c (some d)`. -/
def cmdDataTrace (c : Nat) (d : List Nat) : List Event :=
  cmdTrace c ++ dataTrace d

/-- Trace of a successful `reset`. -/
def resetTrace : List Event :=
  [Event.rstSet false, Event.delayMs 100, Event.rstSet true, Event.delayMs 100]

/-- Trace of a successful `set_ram_address_counter x y`. -/
def addrTrace (x y : Nat) : List Event :=
  cmdDataTrace SET_RAM_X_ADDRESS_COUNTER [x % 256] ++
  cmdDataTrace SET_RAM_Y_ADDRESS_COUNTER [y % 256, (y / 256) % 256]

/-- Environment over trivial error types in which everything succeeds and
the busy pin always reads low. -/
def envIdle : Env Unit Unit :=
  ⟨fun _ => none, fun _ => none, fun _ => none, fun _ => none,
   fun _ => Except.ok false⟩

/-- Like `envIdle` but the busy pin samples high, high, then low forever. -/
def envHHL : Env Unit Unit :=
  { envIdle with busyRes := fun n => Except.ok (decide (n < 2)) }

/-- Like `envIdle` but the busy pin reads high on every sample. -/
def envStuck : Env Unit Unit :=
  { envIdle with busyRes := fun _ => Except.ok true }

/-- Like `envIdle` but every SPI bus write fails. -/
def envSpiFail : Env Unit Unit :=
  { envIdle with spiRes := fun _ => some () }

/-- Like `envIdle` but every busy-pin read fails. -/
def envBusyErr : Env Unit Unit :=
  { envIdle with busyRes := fun _ => Except.error () }

/-- The full ordered SPI bus-write sequence of a successful `init`: the
eight command opcodes interleaved with their payloads. -/
def initWrites : List (List Nat) :=
  [[0x12], [0x01], [0xD3, 0x00, 0x00], [0x11], [0x03], [0x44], [0x00, 0x0C],
   [0x45], [0x00, 0x00, 0xD3, 0x00], [0x3C], [0x05], [0x21], [0x00, 0x80],
   [0x22], [0xC7]]

/-- The ordered command opcodes issued by a successful `init`. -/
def initCommands : List (List Nat) :=
  [[0x12], [0x01], [0x11], [0x44], [0x45], [0x3C], [0x21], [0x22]]

/-! Success-case lemmas for the primitives and composite operations. -/

lemma spiWriteOp_ok (env : Env SPIE GPIOE) (bytes : List Nat) (s : St)
    (h : env.spiRes s.nSpi = none) :
    spiWriteOp env bytes s =
      (Outcome.ok (),
        { s with trace := s.trace ++ [Event.spiWrite bytes], nSpi := s.nSpi + 1 }) := by
  simp [spiWriteOp, h]

lemma csSetOp_ok (env : Env SPIE GPIOE) (b : Bool) (s : St)
    (h : env.csRes s.nCs = none) :
    csSetOp env b s =
      (Outcome.ok (),
        { s with trace := s.trace ++ [Event.csSet b], nCs := s.nCs + 1 }) := by
  simp [csSetOp, h]

lemma dcSetOp_ok (env : Env SPIE GPIOE) (b : Bool) (s : St)
    (h : env.dcRes s.nDc = none) :
    dcSetOp env b s =
      (Outcome.ok (),
        { s with trace := s.trace ++ [Event.dcSet b], nDc := s.nDc + 1 }) := by
  simp [dcSetOp, h]

lemma sendCommand_allOk (env : Env SPIE GPIOE) (h : env.allOk) (c : Nat) (s : St) :
    sendCommand env c s =
      (Outcome.ok (),
        { s with trace := s.trace ++ cmdTrace c,
                 nSpi := s.nSpi + 1, nCs := s.nCs + 2, nDc := s.nDc + 1 }) := by
  obtain ⟨hspi, hcs, hdc, -, -⟩ := h
  simp [sendCommand, step, dcSetOp, csSetOp, spiWriteOp, hspi, hcs, hdc, cmdTrace]

lemma sendData_allOk (env : Env SPIE GPIOE) (h : env.allOk) (d : List Nat) (s : St) :
    sendData env d s =
      (Outcome.ok (),
        { s with trace := s.trace ++ dataTrace d,
                 nSpi := s.nSpi + 1, nCs := s.nCs + 2, nDc := s.nDc + 1 }) := by
  obtain ⟨hspi, hcs, hdc, -, -⟩ := h
  simp [sendData, step, dcSetOp, csSetOp, spiWriteOp, hspi, hcs, hdc, dataTrace]

lemma sendCommandData_allOk (env : Env SPIE GPIOE) (h : env.allOk) (c : Nat)
    (d : List Nat) (s : St) :
    sendCommandData env c (some d) s =
      (Outcome.ok (),
        { s with trace := s.trace ++ cmdDataTrace c d,
                 nSpi := s.nSpi + 2, nCs := s.nCs + 4, nDc := s.nDc + 2 }) := by
  rw [sendCommandData, sendCommand_allOk env h, step]
  simp [sendData_allOk env h, cmdDataTrace]

lemma reset_ok (env : Env SPIE GPIOE) (s : St)
    (h1 : env.rstRes s.nRst = none) (h2 : env.rstRes (s.nRst + 1) = none) :
    reset env s =
      (Outcome.ok (), { s with trace := s.trace ++ resetTrace, nRst := s.nRst + 2 }) := by
  simp [reset, step, rstSetOp, delayOp, h1, h2, resetTrace]

lemma setRamAddressCounter_allOk (env : Env SPIE GPIOE) (h : env.allOk)
    (x y : Nat) (s : St) :
    setRamAddressCounter env x y s =
      (Outcome.ok (),
        { s with trace := s.trace ++ addrTrace x y,
                 nSpi := s.nSpi + 4, nCs := s.nCs + 8, nDc := s.nDc + 4 }) := by
  rw [setRamAddressCounter, sendCommandData_allOk env h, step]
  simp [sendCommandData_allOk env h, step, addrTrace]

lemma pollTail_succ (k : Nat) :
    pollTail (k + 1) = Event.busyRead true :: Event.delayMs 10 :: pollTail k := by
  simp [pollTail, pollsTrue]

lemma busyWait_ok_char (env : Env SPIE GPIOE) :
    ∀ (fuel : Nat) (s s' : St), busyWait env fuel s = (Outcome.ok (), s') →
    ∃ k, s' = { s with trace := s.trace ++ pollTail k, nBusy := s.nBusy + k + 1 } ∧
      env.busyRes (s.nBusy + k) = Except.ok false ∧
      ∀ j < k, env.busyRes (s.nBusy + j) = Except.ok true := by
  intro fuel
  induction fuel with
  | zero => intro s s' h; simp [busyWait] at h
  | succ fuel ih =>
    intro s s' h
    rw [busyWait, busyReadOp] at h
    cases hb : env.busyRes s.nBusy with
    | error e => rw [hb] at h; simp at h
    | ok b =>
      rw [hb] at h
      cases b with
      | false =>
        simp at h
        refine ⟨0, ?_, by simpa using hb, by simp⟩
        rw [← h]
        simp [pollTail, pollsTrue]
      | true =>
        simp [delayOp] at h
        obtain ⟨k, hs, hlow, hhigh⟩ := ih _ _ h
        refine ⟨k + 1, ?_, ?_, ?_⟩
        · rw [hs]
          simp [pollTail_succ, St.mk.injEq]
          try omega
        · simpa [Nat.add_assoc, Nat.add_comm 1 k] using hlow
        · intro j hj
          cases j with
          | zero => simpa using hb
          | succ j =>
            have := hhigh j (by omega)
            simpa [Nat.add_assoc, Nat.add_comm 1 j] using this

lemma busyWait_of_samples (env : Env SPIE GPIOE) :
    ∀ (k : Nat) (s : St),
    (∀ j < k, env.busyRes (s.nBusy + j) = Except.ok true) →
    env.busyRes (s.nBusy + k) = Except.ok false →
    busyWait env (k + 1) s =
      (Outcome.ok (), { s with trace := s.trace ++ pollTail k, nBusy := s.nBusy + k + 1 }) := by
  intro k
  induction k with
  | zero =>
    intro s _ hlow
    rw [busyWait, busyReadOp]
    simp at hlow
    rw [hlow]
    simp [pollTail, pollsTrue]
  | succ k ih =>
    intro s hhigh hlow
    have h0 : env.busyRes s.nBusy = Except.ok true := by simpa using hhigh 0 (by omega)
    rw [busyWait, busyReadOp, h0]
    have hrec := ih { s with trace := s.trace ++ [Event.busyRead true, Event.delayMs 10],
                             nBusy := s.nBusy + 1 }
      (by intro j hj; simpa [Nat.add_assoc, Nat.add_comm 1 j] using hhigh (j + 1) (by omega))
      (by simpa [Nat.add_assoc, Nat.add_comm 1 k] using hlow)
    simp only [delayOp, List.append_assoc, List.singleton_append]
    rw [hrec]
    simp [pollTail_succ, St.mk.injEq]
    try omega

lemma busyWait_stuck (env : Env SPIE GPIOE)
    (hb : ∀ n, env.busyRes n = Except.ok true) :
    ∀ (fuel : Nat) (s : St), (busyWait env fuel s).1 = Outcome.more := by
  intro fuel
  induction fuel with
  | zero => intro s; simp [busyWait]
  | succ fuel ih => intro s; rw [busyWait, busyReadOp, hb]; exact ih _

lemma busyWait_frame (env : Env SPIE GPIOE) :
    ∀ (fuel : Nat) (s : St),
    ∃ tail, (busyWait env fuel s).2.trace = s.trace ++ tail ∧
      (∀ ev ∈ tail, (∃ b, ev = Event.busyRead b) ∨ ev = Event.delayMs 10) ∧
      (busyWait env fuel s).2.nSpi = s.nSpi ∧ (busyWait env fuel s).2.nCs = s.nCs ∧
      (busyWait env fuel s).2.nDc = s.nDc ∧ (busyWait env fuel s).2.nRst = s.nRst := by
  intro fuel
  induction fuel with
  | zero => intro s; exact ⟨[], by simp [busyWait], by simp, rfl, rfl, rfl, rfl⟩
  | succ fuel ih =>
    intro s
    rw [busyWait, busyReadOp]
    cases hb : env.busyRes s.nBusy with
    | error e => exact ⟨[], by simp, by simp, by simp, by simp, by simp, by simp⟩
    | ok b =>
      cases b with
      | false =>
        exact ⟨[Event.busyRead false], by simp, by simp, by simp, by simp, by simp, by simp⟩
      | true =>
        obtain ⟨tail, htr, hmem, h1, h2, h3, h4⟩ :=
          ih (delayOp 10 { s with trace := s.trace ++ [Event.busyRead true],
                                  nBusy := s.nBusy + 1 })
        refine ⟨Event.busyRead true :: Event.delayMs 10 :: tail,
          ?_, ?_, by simpa [delayOp] using h1, by simpa [delayOp] using h2,
          by simpa [delayOp] using h3, by simpa [delayOp] using h4⟩
        · simpa [delayOp] using htr
        · intro ev hev
          simp only [List.mem_cons] at hev
          rcases hev with rfl | rfl | h
          · exact Or.inl ⟨true, rfl⟩
          · exact Or.inr rfl
          · exact hmem ev h

lemma busyWait_err (env : Env SPIE GPIOE) :
    ∀ (k : Nat), ∀ (fuel : Nat) (s : St) (e : GPIOE), k < fuel →
    (∀ j < k, env.busyRes (s.nBusy + j) = Except.ok true) →
    env.busyRes (s.nBusy + k) = Except.error e →
    busyWait env fuel s =
      (Outcome.err (InkyError.Gpio e),
        { s with trace := s.trace ++ pollsTrue k, nBusy := s.nBusy + k + 1 }) := by
  intro k
  induction k with
  | zero =>
    intro fuel s e hk _ herr
    cases fuel with
    | zero => omega
    | succ fuel =>
      rw [busyWait, busyReadOp]
      simp at herr
      rw [herr]
      simp [pollsTrue]
  | succ k ih =>
    intro fuel s e hk hhigh herr
    cases fuel with
    | zero => omega
    | succ fuel =>
      have h0 : env.busyRes s.nBusy = Except.ok true := by simpa using hhigh 0 (by omega)
      rw [busyWait, busyReadOp, h0]
      have hrec := ih fuel
        { s with trace := s.trace ++ [Event.busyRead true, Event.delayMs 10],
                 nBusy := s.nBusy + 1 } e (by omega)
        (by intro j hj; simpa [Nat.add_assoc, Nat.add_comm 1 j] using hhigh (j + 1) (by omega))
        (by simpa [Nat.add_assoc, Nat.add_comm 1 k] using herr)
      simp only [delayOp, List.append_assoc, List.singleton_append]
      rw [hrec]
      simp [pollsTrue, St.mk.injEq]
      try omega

/-! Lemmas about the trace observers. -/

lemma writesOf_append (a b : List Event) :
    writesOf (a ++ b) = writesOf a ++ writesOf b := by
  simp [writesOf]

lemma writesOf_pollsTrue (k : Nat) : writesOf (pollsTrue k) = [] := by
  induction k with
  | zero => rfl
  | succ k ih =>
    simp only [pollsTrue, writesOf, List.filterMap_cons] at ih ⊢
    exact ih

lemma writesOf_pollTail (k : Nat) : writesOf (pollTail k) = [] := by
  rw [pollTail, writesOf_append, writesOf_pollsTrue]
  rfl

lemma commandWritesOf_append (dc : Bool) (a b : List Event) :
    commandWritesOf dc (a ++ b) =
      commandWritesOf dc a ++ commandWritesOf (lastDc dc a) b := by
  induction a generalizing dc with
  | nil => simp [commandWritesOf, lastDc]
  | cons ev rest ih =>
    cases ev with
    | dcSet b2 => simp [commandWritesOf, lastDc, ih]
    | spiWrite bytes =>
      by_cases hdc : dc <;> simp [commandWritesOf, lastDc, ih, hdc]
    | csSet b2 => simp [commandWritesOf, lastDc, ih]
    | rstSet b2 => simp [commandWritesOf, lastDc, ih]
    | busyRead b2 => simp [commandWritesOf, lastDc, ih]
    | delayMs ms => simp [commandWritesOf, lastDc, ih]

lemma commandWritesOf_pollsTrue (dc : Bool) (k : Nat) :
    commandWritesOf dc (pollsTrue k) = [] := by
  induction k with
  | zero => rfl
  | succ k ih => simp [pollsTrue, commandWritesOf, ih]

lemma lastDc_pollsTrue (dc : Bool) (k : Nat) : lastDc dc (pollsTrue k) = dc := by
  induction k with
  | zero => rfl
  | succ k ih => simp [pollsTrue, lastDc, ih]

lemma commandWritesOf_pollTail (dc : Bool) (k : Nat) :
    commandWritesOf dc (pollTail k) = [] := by
  simp [pollTail, commandWritesOf_append, commandWritesOf_pollsTrue,
    lastDc_pollsTrue, commandWritesOf]

lemma lastDc_pollTail (dc : Bool) (k : Nat) : lastDc dc (pollTail k) = dc := by
  simp [pollTail, lastDc_pollsTrue]
  induction k with
  | zero => rfl
  | succ k ih => simpa [pollsTrue, lastDc] using ih

lemma commandWritesOf_cmdDataTrace (dc : Bool) (c : Nat) (d : List Nat) :
    commandWritesOf dc (cmdDataTrace c d) = [[c]] := by
  simp [cmdDataTrace, cmdTrace, dataTrace, commandWritesOf]

lemma lastDc_cmdDataTrace (dc : Bool) (c : Nat) (d : List Nat) :
    lastDc dc (cmdDataTrace c d) = true := by
  simp [cmdDataTrace, cmdTrace, dataTrace, lastDc]

lemma writesOf_cmdTrace (c : Nat) : writesOf (cmdTrace c) = [[c]] := by
  simp [cmdTrace, writesOf]

lemma writesOf_cmdDataTrace (c : Nat) (d : List Nat) :
    writesOf (cmdDataTrace c d) = [[c], d] := by
  simp [cmdDataTrace, cmdTrace, dataTrace, writesOf]

lemma writesOf_resetTrace : writesOf resetTrace = [] := by
  simp [resetTrace, writesOf]

lemma step_ok_left {ε α β : Type} (a : α) (s : St) (f : α → St → Outcome ε β × St) :
    step (Outcome.ok a, s) f = f a s := rfl

lemma step_eq_ok {ε α β : Type} {m : Outcome ε α × St} {f : α → St → Outcome ε β × St}
    {b : β} {s' : St} (h : step m f = (Outcome.ok b, s')) :
    ∃ a s1, m = (Outcome.ok a, s1) ∧ f a s1 = (Outcome.ok b, s') := by
  rcases m with ⟨r, s1⟩
  cases r with
  | ok a => exact ⟨a, s1, rfl, h⟩
  | err e => simp [step] at h
  | more => simp [step] at h

lemma commandWritesOf_resetTrace (dc : Bool) : commandWritesOf dc resetTrace = [] := by
  simp [resetTrace, commandWritesOf]

lemma lastDc_resetTrace (dc : Bool) : lastDc dc resetTrace = dc := by
  simp [resetTrace, lastDc]

lemma commandWritesOf_cmdTrace (dc : Bool) (c : Nat) :
    commandWritesOf dc (cmdTrace c) = [[c]] := by
  simp [cmdTrace, commandWritesOf]

lemma lastDc_cmdTrace (dc : Bool) (c : Nat) : lastDc dc (cmdTrace c) = false := by
  simp [cmdTrace, lastDc]

lemma update_bw_allOk (env : Env SPIE GPIOE) (h : env.allOk) (buf : List Nat) (s : St) :
    update_bw env buf s =
      (Outcome.ok (),
        { s with trace := s.trace ++ (addrTrace 0 0 ++ cmdDataTrace WRITE_RAM_BW buf),
                 nSpi := s.nSpi + 6, nCs := s.nCs + 12, nDc := s.nDc + 6 }) := by
  rw [update_bw, setRamAddressCounter_allOk env h, step_ok_left]
  simp [sendCommandData_allOk env h, step_ok_left, step]

lemma update_red_allOk (env : Env SPIE GPIOE) (h : env.allOk) (buf : List Nat) (s : St) :
    update_red env buf s =
      (Outcome.ok (),
        { s with trace := s.trace ++ (addrTrace 0 0 ++ cmdDataTrace WRITE_RAM_RED buf),
                 nSpi := s.nSpi + 6, nCs := s.nCs + 12, nDc := s.nDc + 6 }) := by
  rw [update_red, setRamAddressCounter_allOk env h, step_ok_left]
  simp [sendCommandData_allOk env h, step_ok_left, step]

lemma envIdle_allOk : (envIdle).allOk :=
  ⟨fun _ => rfl, fun _ => rfl, fun _ => rfl, fun _ => rfl, fun _ => ⟨false, rfl⟩⟩

/-! Claim theorems. -/

/-- Claim C2: in every successful call, `send_command c` drives the
data/command line low before chip-select goes low, writes exactly the one
byte `c` on the bus, and drives chip-select high before returning; and
`send_data buf` drives the data/command line high before chip-select goes
low, writes the entire `buf` in a single bus write, and drives chip-select
high before returning.  `cmdTrace` and `dataTrace` spell out these exact
event orders. -/
theorem C2_send_command_send_data_traces (env : Env SPIE GPIOE) (h : env.allOk)
    (c : Nat) (buf : List Nat) (s : St) :
    sendCommand env c s =
      (Outcome.ok (),
        { s with trace := s.trace ++ cmdTrace c,
                 nSpi := s.nSpi + 1, nCs := s.nCs + 2, nDc := s.nDc + 1 }) ∧
    sendData env buf s =
      (Outcome.ok (),
        { s with trace := s.trace ++ dataTrace buf,
                 nSpi := s.nSpi + 1, nCs := s.nCs + 2, nDc := s.nDc + 1 }) :=
  ⟨sendCommand_allOk env h c s, sendData_allOk env h buf s⟩

/-- Witness for C2 at a concrete environment, command byte and buffer. -/
theorem C2_send_command_send_data_traces_witness :
    sendCommand envIdle 0x12 St.start =
      (Outcome.ok (),
        { St.start with trace := cmdTrace 0x12, nSpi := 1, nCs := 2, nDc := 1 }) ∧
    sendData envIdle [0xAA, 0xBB] St.start =
      (Outcome.ok (),
        { St.start with trace := dataTrace [0xAA, 0xBB], nSpi := 1, nCs := 2, nDc := 1 }) :=
  C2_send_command_send_data_traces envIdle envIdle_allOk 0x12 [0xAA, 0xBB] St.start

/-- Claim C8: in every successful call, `reset` drives the reset line low,
delays 100 ms, drives the reset line high, delays 100 ms, and performs no
other pin transitions or bus writes: the full event trace appended is
exactly `resetTrace`. -/
theorem C8_reset_pulse_trace (env : Env SPIE GPIOE) (s : St)
    (h1 : env.rstRes s.nRst = none) (h2 : env.rstRes (s.nRst + 1) = none) :
    reset env s =
      (Outcome.ok (), { s with trace := s.trace ++ resetTrace, nRst := s.nRst + 2 }) :=
  reset_ok env s h1 h2

/-- Witness for C8 at a concrete environment. -/
theorem C8_reset_pulse_trace_witness :
    reset envIdle St.start = (Outcome.ok (), { St.start with trace := resetTrace, nRst := 2 }) :=
  C8_reset_pulse_trace envIdle St.start rfl rfl

/-- Claim C3: for every plane buffer, `update_bw` and `update_red` emit the
RAM-X-counter command (0x4E) with one-byte payload `[0x00]` and the
RAM-Y-counter command (0x4F) with two-byte little-endian payload
`[0x00, 0x00]`, immediately before the plane's RAM-write command (0x24 for
black/white, 0x26 for red) followed by the full buffer; the command opcodes
written are exactly 0x4E, 0x4F and the RAM-write opcode, so neither call
issues a master-activation (0x20). -/
theorem C3_update_plane_address_reset (env : Env SPIE GPIOE) (h : env.allOk)
    (buf : List Nat) (s : St) :
    update_bw env buf s =
      (Outcome.ok (),
        { s with trace := s.trace ++ (addrTrace 0 0 ++ cmdDataTrace WRITE_RAM_BW buf),
                 nSpi := s.nSpi + 6, nCs := s.nCs + 12, nDc := s.nDc + 6 }) ∧
    update_red env buf s =
      (Outcome.ok (),
        { s with trace := s.trace ++ (addrTrace 0 0 ++ cmdDataTrace WRITE_RAM_RED buf),
                 nSpi := s.nSpi + 6, nCs := s.nCs + 12, nDc := s.nDc + 6 }) ∧
    WRITE_RAM_BW = 0x24 ∧ WRITE_RAM_RED = 0x26 ∧
    SET_RAM_X_ADDRESS_COUNTER = 0x4E ∧ SET_RAM_Y_ADDRESS_COUNTER = 0x4F ∧
    MASTER_ACTIVATION = 0x20 ∧
    writesOf (addrTrace 0 0 ++ cmdDataTrace WRITE_RAM_BW buf) =
      [[0x4E], [0x00], [0x4F], [0x00, 0x00], [0x24], buf] ∧
    writesOf (addrTrace 0 0 ++ cmdDataTrace WRITE_RAM_RED buf) =
      [[0x4E], [0x00], [0x4F], [0x00, 0x00], [0x26], buf] ∧
    (∀ dc, commandWritesOf dc (addrTrace 0 0 ++ cmdDataTrace WRITE_RAM_BW buf) =
      [[0x4E], [0x4F], [0x24]]) ∧
    (∀ dc, commandWritesOf dc (addrTrace 0 0 ++ cmdDataTrace WRITE_RAM_RED buf) =
      [[0x4E], [0x4F], [0x26]]) := by
  refine ⟨update_bw_allOk env h buf s, update_red_allOk env h buf s,
    rfl, rfl, rfl, rfl, rfl, ?_, ?_, ?_, ?_⟩
  · simp [addrTrace, writesOf_append, writesOf_cmdDataTrace,
      SET_RAM_X_ADDRESS_COUNTER, SET_RAM_Y_ADDRESS_COUNTER, WRITE_RAM_BW]
  · simp [addrTrace, writesOf_append, writesOf_cmdDataTrace,
      SET_RAM_X_ADDRESS_COUNTER, SET_RAM_Y_ADDRESS_COUNTER, WRITE_RAM_RED]
  · intro dc
    simp [addrTrace, commandWritesOf_append, commandWritesOf_cmdDataTrace,
      lastDc_cmdDataTrace, SET_RAM_X_ADDRESS_COUNTER, SET_RAM_Y_ADDRESS_COUNTER,
      WRITE_RAM_BW]
  · intro dc
    simp [addrTrace, commandWritesOf_append, commandWritesOf_cmdDataTrace,
      lastDc_cmdDataTrace, SET_RAM_X_ADDRESS_COUNTER, SET_RAM_Y_ADDRESS_COUNTER,
      WRITE_RAM_RED]

/-- Witness for C3 at a concrete environment and buffer. -/
theorem C3_update_plane_address_reset_witness :
    update_bw envIdle [0x07] St.start =
      (Outcome.ok (),
        { St.start with trace := addrTrace 0 0 ++ cmdDataTrace WRITE_RAM_BW [0x07],
                        nSpi := 6, nCs := 12, nDc := 6 }) :=
  (C3_update_plane_address_reset envIdle envIdle_allOk [0x07] St.start).1

/-- Claim C6 counterexample: a 1-byte plane buffer (length 1 ≠ 2756) is
neither rejected nor flagged by `update_bw`/`update_red`: both calls
succeed and transmit the wrong-length buffer unchanged on the bus. -/
theorem C6_wrong_length_counterexample :
    ([0xAB] : List Nat).length ≠ 2756 ∧
    (update_bw envIdle [0xAB] St.start).1 = Outcome.ok () ∧
    writesOf (update_bw envIdle [0xAB] St.start).2.trace =
      [[0x4E], [0x00], [0x4F], [0x00, 0x00], [0x24], [0xAB]] ∧
    (update_red envIdle [0xAB] St.start).1 = Outcome.ok () ∧
    writesOf (update_red envIdle [0xAB] St.start).2.trace =
      [[0x4E], [0x00], [0x4F], [0x00, 0x00], [0x26], [0xAB]] := by
  refine ⟨by decide, by decide, by decide, by decide, by decide⟩

/-- Claim C6 (amended): `update_bw` and `update_red` perform no length
validation at all: every buffer, of any length, is accepted (the call
succeeds) and transmitted unchanged as the RAM-write payload. -/
theorem C6_no_length_validation (env : Env SPIE GPIOE) (h : env.allOk)
    (buf : List Nat) (s : St) :
    (update_bw env buf s).1 = Outcome.ok () ∧
    writesOf (update_bw env buf s).2.trace = writesOf s.trace ++
      [[SET_RAM_X_ADDRESS_COUNTER], [0x00], [SET_RAM_Y_ADDRESS_COUNTER], [0x00, 0x00],
       [WRITE_RAM_BW], buf] ∧
    (update_red env buf s).1 = Outcome.ok () ∧
    writesOf (update_red env buf s).2.trace = writesOf s.trace ++
      [[SET_RAM_X_ADDRESS_COUNTER], [0x00], [SET_RAM_Y_ADDRESS_COUNTER], [0x00, 0x00],
       [WRITE_RAM_RED], buf] := by
  rw [update_bw_allOk env h, update_red_allOk env h]
  refine ⟨rfl, ?_, rfl, ?_⟩ <;>
    simp [addrTrace, writesOf_append, writesOf_cmdDataTrace]

/-- Witness for C6 (amended) at a concrete environment and buffer. -/
theorem C6_no_length_validation_witness :
    (update_bw envIdle [0xCD] St.start).1 = Outcome.ok () :=
  (C6_no_length_validation envIdle envIdle_allOk [0xCD] St.start).1

/-- Claim C4: `busy_wait` samples the busy input at least once and returns
exactly at the first sample that reads deasserted (low), sleeping the fixed
10 ms poll interval after each asserted (high) sample; in particular, under
the sample sequence high, high, low it performs exactly 2 poll-sleeps
before returning. -/
theorem C4_busy_wait_first_low :
    (∀ (S G : Type) (env : Env S G) (fuel : Nat) (s s' : St),
      busyWait env fuel s = (Outcome.ok (), s') →
      ∃ k, s' = { s with trace := s.trace ++ pollTail k, nBusy := s.nBusy + k + 1 } ∧
        env.busyRes (s.nBusy + k) = Except.ok false ∧
        ∀ j < k, env.busyRes (s.nBusy + j) = Except.ok true) ∧
    busyWait envHHL 3 St.start =
      (Outcome.ok (),
        { St.start with
            trace := [Event.busyRead true, Event.delayMs 10, Event.busyRead true,
                      Event.delayMs 10, Event.busyRead false],
            nBusy := 3 }) ∧
    (busyWait envHHL 3 St.start).2.trace.count (Event.delayMs 10) = 2 :=
  ⟨fun _ _ env fuel s s' h => busyWait_ok_char env fuel s s' h, by decide, by decide⟩

/-- Witness for C4: the general part applied to the high, high, low sample
sequence. -/
theorem C4_busy_wait_first_low_witness :
    ∃ k, ({ St.start with
        trace := [Event.busyRead true, Event.delayMs 10, Event.busyRead true,
                  Event.delayMs 10, Event.busyRead false], nBusy := 3 } : St) =
      { St.start with trace := St.start.trace ++ pollTail k,
                      nBusy := St.start.nBusy + k + 1 } ∧
      envHHL.busyRes (St.start.nBusy + k) = Except.ok false ∧
      ∀ j < k, envHHL.busyRes (St.start.nBusy + j) = Except.ok true :=
  C4_busy_wait_first_low.1 Unit Unit envHHL 3 St.start _ (by decide)

/-- Claim C7: `busy_wait` returns successfully iff the busy input
eventually samples deasserted (low) with every earlier sample reading
asserted without failure; and for a busy input that reads asserted (high)
on every sample, `busy_wait` never returns: under every fuel bound it is
still running (`more`), so there is no poll-count bound after which it
gives up. -/
theorem C7_busy_wait_termination (env : Env SPIE GPIOE) (s : St) :
    ((∃ fuel s', busyWait env fuel s = (Outcome.ok (), s')) ↔
      (∃ k, (∀ j < k, env.busyRes (s.nBusy + j) = Except.ok true) ∧
        env.busyRes (s.nBusy + k) = Except.ok false)) ∧
    ((∀ n, env.busyRes n = Except.ok true) →
      ∀ fuel, (busyWait env fuel s).1 = Outcome.more) := by
  constructor
  · constructor
    · rintro ⟨fuel, s', h⟩
      obtain ⟨k, -, hlow, hhigh⟩ := busyWait_ok_char env fuel s s' h
      exact ⟨k, hhigh, hlow⟩
    · rintro ⟨k, hhigh, hlow⟩
      exact ⟨k + 1, _, busyWait_of_samples env k s hhigh hlow⟩
  · intro hb fuel
    exact busyWait_stuck env hb fuel s

/-- Witness for C7: with an always-asserted busy pin no fuel suffices, and
with an immediately-deasserted busy pin the wait returns. -/
theorem C7_busy_wait_termination_witness :
    (busyWait envStuck 5 St.start).1 = Outcome.more ∧
    (∃ fuel s', busyWait envIdle fuel St.start = (Outcome.ok (), s')) :=
  ⟨(C7_busy_wait_termination envStuck St.start).2 (fun _ => rfl) 5,
   (C7_busy_wait_termination envIdle St.start).1.mpr
     ⟨0, fun j hj => absurd hj (Nat.not_lt_zero j), rfl⟩⟩

/-- Claim C9: in every successful call, `display_refresh` first issues
exactly the master-activation command (0x20) with no payload, then
busy-waits until the busy input samples deasserted, and only then returns;
the only bus write of the whole call is the single byte 0x20. -/
theorem C9_display_refresh_trace (env : Env SPIE GPIOE) (h : env.allOk)
    (fuel : Nat) (s s' : St)
    (hrun : display_refresh env fuel s = (Outcome.ok (), s')) :
    ∃ k, s' = { s with trace := s.trace ++ (cmdTrace MASTER_ACTIVATION ++ pollTail k),
                       nSpi := s.nSpi + 1, nCs := s.nCs + 2, nDc := s.nDc + 1,
                       nBusy := s.nBusy + k + 1 } ∧
      env.busyRes (s.nBusy + k) = Except.ok false ∧
      writesOf (cmdTrace MASTER_ACTIVATION ++ pollTail k) = [[0x20]] := by
  rw [display_refresh, sendCommand_allOk env h, step_ok_left] at hrun
  obtain ⟨⟨⟩, s2, hbw, hfin⟩ := step_eq_ok hrun
  simp only [Prod.mk.injEq, true_and] at hfin
  obtain ⟨k, hs2, hlow, -⟩ := busyWait_ok_char env fuel _ s2 hbw
  refine ⟨k, ?_, by simpa using hlow, ?_⟩
  · rw [← hfin, hs2]
    simp [St.mk.injEq]
  · rw [writesOf_append, writesOf_cmdTrace, writesOf_pollTail]
    simp [MASTER_ACTIVATION]

/-- Witness for C9 at a concrete environment with an immediately-deasserted
busy pin. -/
theorem C9_display_refresh_trace_witness :
    ∃ k, ({ St.start with trace := cmdTrace MASTER_ACTIVATION ++ pollTail 0,
                          nSpi := 1, nCs := 2, nDc := 1, nBusy := 1 } : St) =
      { St.start with
          trace := St.start.trace ++ (cmdTrace MASTER_ACTIVATION ++ pollTail k),
          nSpi := St.start.nSpi + 1, nCs := St.start.nCs + 2, nDc := St.start.nDc + 1,
          nBusy := St.start.nBusy + k + 1 } ∧
      envIdle.busyRes (St.start.nBusy + k) = Except.ok false ∧
      writesOf (cmdTrace MASTER_ACTIVATION ++ pollTail k) = [[0x20]] :=
  C9_display_refresh_trace envIdle envIdle_allOk 1 St.start _ (by decide)

/-- Claim C10: for every environment, fuel bound and start state,
`busy_wait` writes no bytes on the serial bus and performs no chip-select,
data/command or reset transitions: the only events it appends are busy-pin
reads and 10 ms delays, and the SPI, CS, DC and RST call counters are
unchanged. -/
theorem C10_busy_wait_frame (env : Env SPIE GPIOE) (fuel : Nat) (s : St) :
    ∃ tail, (busyWait env fuel s).2.trace = s.trace ++ tail ∧
      (∀ ev ∈ tail, (∃ b, ev = Event.busyRead b) ∨ ev = Event.delayMs 10) ∧
      (busyWait env fuel s).2.nSpi = s.nSpi ∧ (busyWait env fuel s).2.nCs = s.nCs ∧
      (busyWait env fuel s).2.nDc = s.nDc ∧ (busyWait env fuel s).2.nRst = s.nRst :=
  busyWait_frame env fuel s

set_option maxHeartbeats 1000000 in
/-- Claim C1: in every run of `init` in which every underlying pin and bus
operation succeeds, the bus writes appended are exactly `initWrites` — the
opcodes 0x12, 0x01, 0x11, 0x44, 0x45, 0x3C, 0x21, 0x22 in this order, each
immediately followed by its byte-exact payload ([0xD3,0x00,0x00], [0x03],
[0x00,0x0C], [0x00,0x00,0xD3,0x00], [0x05], [0x00,0x80], [0xC7]) — and the
command opcodes written (bus writes with the data/command line low) are
exactly `initCommands`, with no other commands. -/
theorem C1_init_command_sequence (env : Env SPIE GPIOE) (h : env.allOk)
    (fuel : Nat) (s s' : St) (hrun : init env fuel s = (Outcome.ok (), s')) :
    ∃ tail, s'.trace = s.trace ++ tail ∧ writesOf tail = initWrites ∧
      ∀ dc, commandWritesOf dc tail = initCommands := by
  rw [init, reset_ok env s (h.2.2.2.1 s.nRst) (h.2.2.2.1 (s.nRst + 1)),
    step_ok_left] at hrun
  obtain ⟨⟨⟩, s2, hbw1, hrun⟩ := step_eq_ok hrun
  obtain ⟨k1, hs2, -, -⟩ := busyWait_ok_char env fuel _ s2 hbw1
  subst hs2
  rw [sendCommand_allOk env h, step_ok_left] at hrun
  obtain ⟨⟨⟩, s4, hbw2, hrun⟩ := step_eq_ok hrun
  obtain ⟨k2, hs4, -, -⟩ := busyWait_ok_char env fuel _ s4 hbw2
  subst hs4
  rw [sendCommandData_allOk env h, step_ok_left] at hrun
  rw [sendCommandData_allOk env h, step_ok_left] at hrun
  rw [sendCommandData_allOk env h, step_ok_left] at hrun
  rw [sendCommandData_allOk env h, step_ok_left] at hrun
  rw [sendCommandData_allOk env h, step_ok_left] at hrun
  rw [sendCommandData_allOk env h, step_ok_left] at hrun
  rw [sendCommandData_allOk env h, step_ok_left] at hrun
  simp only [Prod.mk.injEq, true_and] at hrun
  refine ⟨resetTrace ++ pollTail k1 ++ cmdTrace SW_RESET ++ pollTail k2 ++
    cmdDataTrace DRIVER_OUTPUT_CONTROL [0xD3, 0x00, 0x00] ++
    cmdDataTrace DATA_ENTRY_MODE_SETTING [0x03] ++
    cmdDataTrace SET_RAM_X_ADDRESS_START_END_POSITION [0x00, 0x0C] ++
    cmdDataTrace SET_RAM_Y_ADDRESS_START_END_POSITION [0x00, 0x00, 0xD3, 0x00] ++
    cmdDataTrace BORDER_WAVEFORM_CONTROL [0x05] ++
    cmdDataTrace DISPLAY_UPDATE_CONTROL_1 [0x00, 0x80] ++
    cmdDataTrace DISPLAY_UPDATE_CONTROL_2 [0xC7], ?_, ?_, ?_⟩
  · rw [← hrun]
    simp [List.append_assoc]
  · simp [writesOf_append, writesOf_resetTrace, writesOf_pollTail, writesOf_cmdTrace,
      writesOf_cmdDataTrace, initWrites, SW_RESET, DRIVER_OUTPUT_CONTROL,
      DATA_ENTRY_MODE_SETTING, SET_RAM_X_ADDRESS_START_END_POSITION,
      SET_RAM_Y_ADDRESS_START_END_POSITION, BORDER_WAVEFORM_CONTROL,
      DISPLAY_UPDATE_CONTROL_1, DISPLAY_UPDATE_CONTROL_2]
  · intro dc
    simp [commandWritesOf_append, commandWritesOf_resetTrace, lastDc_resetTrace,
      commandWritesOf_pollTail, lastDc_pollTail, commandWritesOf_cmdTrace,
      lastDc_cmdTrace, commandWritesOf_cmdDataTrace, lastDc_cmdDataTrace,
      initCommands, SW_RESET, DRIVER_OUTPUT_CONTROL, DATA_ENTRY_MODE_SETTING,
      SET_RAM_X_ADDRESS_START_END_POSITION, SET_RAM_Y_ADDRESS_START_END_POSITION,
      BORDER_WAVEFORM_CONTROL, DISPLAY_UPDATE_CONTROL_1, DISPLAY_UPDATE_CONTROL_2]

/-- Witness for C1: a concrete fully-successful run of `init` with the busy
pin reading low at each poll. -/
theorem C1_init_command_sequence_witness :
    ∃ tail, (init envIdle 1 St.start).2.trace = St.start.trace ++ tail ∧
      writesOf tail = initWrites ∧ ∀ dc, commandWritesOf dc tail = initCommands :=
  C1_init_command_sequence envIdle envIdle_allOk 1 St.start
    (init envIdle 1 St.start).2 (by decide)

/-- Claim C5: every protocol-level operation surfaces the first underlying
failure immediately with the matching tag (`Spi` for bus failures, `Gpio`
for pin failures), performs no further bus writes or pin transitions after
the failing step, and never retries it: the trace appended on failure is
exactly the successful prefix of the call.  In particular a bus-write
failure inside `send_command` or `send_data` returns with the last
transition being `csSet false`, leaving chip-select low.  For the composite
`set_ram_address_counter`, a failing X-counter step aborts the call with
that step's error and state, and a failing Y-counter step propagates
unchanged. -/
theorem C5_first_failure_propagation (env : Env SPIE GPIOE) (c : Nat)
    (d : List Nat) (x y : Nat) (s : St) :
    (∀ e, env.dcRes s.nDc = some e →
      sendCommand env c s =
        (Outcome.err (InkyError.Gpio e), { s with nDc := s.nDc + 1 })) ∧
    (∀ e, env.dcRes s.nDc = none → env.csRes s.nCs = some e →
      sendCommand env c s =
        (Outcome.err (InkyError.Gpio e),
          { s with trace := s.trace ++ [Event.dcSet false],
                   nCs := s.nCs + 1, nDc := s.nDc + 1 })) ∧
    (∀ e, env.dcRes s.nDc = none → env.csRes s.nCs = none → env.spiRes s.nSpi = some e →
      sendCommand env c s =
        (Outcome.err (InkyError.Spi e),
          { s with trace := s.trace ++ [Event.dcSet false, Event.csSet false],
                   nSpi := s.nSpi + 1, nCs := s.nCs + 1, nDc := s.nDc + 1 })) ∧
    (∀ e, env.dcRes s.nDc = none → env.csRes s.nCs = none → env.spiRes s.nSpi = none →
      env.csRes (s.nCs + 1) = some e →
      sendCommand env c s =
        (Outcome.err (InkyError.Gpio e),
          { s with trace := s.trace ++ [Event.dcSet false, Event.csSet false, Event.spiWrite [c]],
                   nSpi := s.nSpi + 1, nCs := s.nCs + 2, nDc := s.nDc + 1 })) ∧
    (∀ e, env.dcRes s.nDc = some e →
      sendData env d s =
        (Outcome.err (InkyError.Gpio e), { s with nDc := s.nDc + 1 })) ∧
    (∀ e, env.dcRes s.nDc = none → env.csRes s.nCs = some e →
      sendData env d s =
        (Outcome.err (InkyError.Gpio e),
          { s with trace := s.trace ++ [Event.dcSet true],
                   nCs := s.nCs + 1, nDc := s.nDc + 1 })) ∧
    (∀ e, env.dcRes s.nDc = none → env.csRes s.nCs = none → env.spiRes s.nSpi = some e →
      sendData env d s =
        (Outcome.err (InkyError.Spi e),
          { s with trace := s.trace ++ [Event.dcSet true, Event.csSet false],
                   nSpi := s.nSpi + 1, nCs := s.nCs + 1, nDc := s.nDc + 1 })) ∧
    (∀ e, env.dcRes s.nDc = none → env.csRes s.nCs = none → env.spiRes s.nSpi = none →
      env.csRes (s.nCs + 1) = some e →
      sendData env d s =
        (Outcome.err (InkyError.Gpio e),
          { s with trace := s.trace ++ [Event.dcSet true, Event.csSet false, Event.spiWrite d],
                   nSpi := s.nSpi + 1, nCs := s.nCs + 2, nDc := s.nDc + 1 })) ∧
    (∀ e, env.rstRes s.nRst = some e →
      reset env s =
        (Outcome.err (InkyError.Gpio e), { s with nRst := s.nRst + 1 })) ∧
    (∀ e, env.rstRes s.nRst = none → env.rstRes (s.nRst + 1) = some e →
      reset env s =
        (Outcome.err (InkyError.Gpio e),
          { s with trace := s.trace ++ [Event.rstSet false, Event.delayMs 100],
                   nRst := s.nRst + 2 })) ∧
    (∀ (k fuel : Nat) (e : GPIOE), k < fuel →
      (∀ j < k, env.busyRes (s.nBusy + j) = Except.ok true) →
      env.busyRes (s.nBusy + k) = Except.error e →
      busyWait env fuel s =
        (Outcome.err (InkyError.Gpio e),
          { s with trace := s.trace ++ pollsTrue k, nBusy := s.nBusy + k + 1 })) ∧
    (∀ e s', sendCommandData env SET_RAM_X_ADDRESS_COUNTER (some [x % 256]) s =
        (Outcome.err e, s') →
      setRamAddressCounter env x y s = (Outcome.err e, s')) ∧
    (∀ s1 e s',
      sendCommandData env SET_RAM_X_ADDRESS_COUNTER (some [x % 256]) s =
        (Outcome.ok (), s1) →
      sendCommandData env SET_RAM_Y_ADDRESS_COUNTER
        (some [y % 256, (y / 256) % 256]) s1 = (Outcome.err e, s') →
      setRamAddressCounter env x y s = (Outcome.err e, s')) := by
  refine ⟨?_, ?_, ?_, ?_, ?_, ?_, ?_, ?_, ?_, ?_, ?_, ?_, ?_⟩
  · intro e h1
    simp [sendCommand, step, dcSetOp, h1]
  · intro e h1 h2
    simp [sendCommand, step, dcSetOp, csSetOp, h1, h2]
  · intro e h1 h2 h3
    simp [sendCommand, step, dcSetOp, csSetOp, spiWriteOp, h1, h2, h3]
  · intro e h1 h2 h3 h4
    simp [sendCommand, step, dcSetOp, csSetOp, spiWriteOp, h1, h2, h3, h4]
  · intro e h1
    simp [sendData, step, dcSetOp, h1]
  · intro e h1 h2
    simp [sendData, step, dcSetOp, csSetOp, h1, h2]
  · intro e h1 h2 h3
    simp [sendData, step, dcSetOp, csSetOp, spiWriteOp, h1, h2, h3]
  · intro e h1 h2 h3 h4
    simp [sendData, step, dcSetOp, csSetOp, spiWriteOp, h1, h2, h3, h4]
  · intro e h1
    simp [reset, step, rstSetOp, h1]
  · intro e h1 h2
    simp [reset, step, rstSetOp, delayOp, h1, h2]
  · intro k fuel e hk hhigh herr
    exact busyWait_err env k fuel s e hk hhigh herr
  · intro e s' hx
    rw [setRamAddressCounter, hx]
    rfl
  · intro s1 e s' hx hy
    rw [setRamAddressCounter, hx, step_ok_left, hy]
    rfl

/-- Witness for C5: a bus-write failure inside `send_command` surfaces a
`Spi`-tagged error with chip-select left low, and a busy-pin read failure
surfaces a `Gpio`-tagged error after no bus activity. -/
theorem C5_first_failure_propagation_witness :
    sendCommand envSpiFail 0x12 St.start =
      (Outcome.err (InkyError.Spi ()),
        { St.start with trace := [Event.dcSet false, Event.csSet false],
                        nSpi := 1, nCs := 1, nDc := 1 }) ∧
    busyWait envBusyErr 3 St.start =
      (Outcome.err (InkyError.Gpio ()), { St.start with nBusy := 1 }) :=
  ⟨(C5_first_failure_propagation envSpiFail 0x12 [] 0 0 St.start).2.2.1 () rfl rfl rfl,
   (C5_first_failure_propagation envBusyErr 0 [] 0 0 St.start).2.2.2.2.2.2.2.2.2.2.1
     0 3 () (by omega) (fun j hj => absurd hj (Nat.not_lt_zero j)) rfl⟩

end InkyDriver
